import Mathlib

/-!
Shallow embedding of the core of the DuBaoThoiTiet_Django weather service
(files src/api/tasks.py, src/api/views.py, src/api/models.py) and proofs
about the claims of its specification.

Modelling conventions:
* Django ORM tables are lists of records; primary keys are natural numbers.
* `Decimal` columns and coordinate values are rational numbers (`ℚ`),
  since Python `Decimal` arithmetic at the precisions used here is exact.
* Timestamps and dates are natural numbers (a linear clock).
* The Ollama inference service and the WeatherAPI source are oracles passed
  in as function arguments or as explicit fetch-result values.
* Fallible upstream payloads are explicit sum types.
-/

namespace DuBao

/-- Parsed JSON values, as produced by Python `json.loads`. -/
inductive Json where
  | null
  | bool (b : Bool)
  | num (q : ℚ)
  | str (s : String)
  | arr (xs : List Json)
  | obj (fields : List (String × Json))

/-- Embedding of the response-normalization step of
`call_local_ai_for_analysis` (tasks.py lines 204-233).  The input is the
parse of the string in the Ollama `response` field: `none` stands for a
`json.JSONDecodeError`.  The result mirrors the source: a list of alert
payloads together with an optional error string (`none` = no error).
Branches, in source order:
* a JSON list is returned as-is with no error;
* a dict whose `severity` entry is a string whose upper-casing is not
  `"NONE"` is wrapped in a one-element list (a missing `severity` key reads
  as the default `'NONE'`; a non-string value makes Python `.upper()` raise
  `AttributeError`, caught by the outermost handler as an unexpected error);
* an empty dict gives zero alerts and no error;
* everything else gives zero alerts and the error
  `"AI response invalid structure"`. -/
def call_local_ai_for_analysis (resp : Option Json) : List Json × Option String :=
  match resp with
  | none => ([], some "AI Response Parsing Error")
  | some j =>
    match j with
    | .arr xs => (xs, none)
    | .obj fields =>
      match fields.lookup "severity" with
      | some (.str s) =>
          if s.toUpper ≠ "NONE" then ([Json.obj fields], none)
          else if fields.isEmpty then ([], none)
          else ([], some "AI response invalid structure")
      | some _ => ([], some "Unexpected AI Error: severity is not a string")
      | none =>
          if fields.isEmpty then ([], none)
          else ([], some "AI response invalid structure")
    | _ => ([], some "AI response invalid structure")

/-- Shapes of the inference response, as the amended claim classifies them. -/
inductive RespShape where
  | arrayShape (xs : List Json)
  | wrappedAlert (fields : List (String × Json))
  | emptyObject
  | invalidShape
  | parseFailure

/-- Classification of a parsed inference response into the amended claim's
shapes, written from the claim's words: a JSON array; an object carrying a
string `severity` that is not `NONE` (case-insensitively); the empty
object; anything else; or a parse failure. -/
def classifyResp (resp : Option Json) : RespShape :=
  match resp with
  | none => .parseFailure
  | some (.arr xs) => .arrayShape xs
  | some (.obj fields) =>
    match fields.lookup "severity" with
    | some (.str s) =>
        if s.toUpper ≠ "NONE" then .wrappedAlert fields
        else if fields.isEmpty then .emptyObject
        else .invalidShape
    | some _ => .invalidShape
    | none => if fields.isEmpty then .emptyObject else .invalidShape
  | some _ => .invalidShape

/-- Alert list the amended claim assigns to each response shape. -/
def shapeAlerts : RespShape → List Json
  | .arrayShape xs => xs
  | .wrappedAlert fields => [Json.obj fields]
  | .emptyObject => []
  | .invalidShape => []
  | .parseFailure => []

/-- Whether the amended claim assigns an error outcome to a response shape. -/
def shapeIsError : RespShape → Bool
  | .arrayShape _ => false
  | .wrappedAlert _ => false
  | .emptyObject => false
  | .invalidShape => true
  | .parseFailure => true

/-- C2, counterexample.  The claim states that an invalid object yields zero
alerts without an error, but on the invalid object `{"foo": "bar"}` the
normalization of `call_local_ai_for_analysis` yields the error outcome
`"AI response invalid structure"`, which is not the no-error outcome. -/
theorem C2_counterexample :
    call_local_ai_for_analysis (some (Json.obj [("foo", Json.str "bar")]))
      = ([], some "AI response invalid structure")
    ∧ (some "AI response invalid structure" : Option String) ≠ none := by
  exact ⟨rfl, by simp⟩

/-- C2, amended: the inference-response normalization classifies every parsed
response into exactly one of five shapes: a JSON array is used as-is (an
empty array means zero alerts, not an error); an object whose `severity`
field is a string other than `NONE` (case-insensitively) is wrapped into a
one-element array; an empty object yields zero alerts without an error; any
other object — including invalid alert objects — and any non-array
non-object value yields an error outcome with zero alerts, as does a JSON
parse failure. -/
theorem C2_response_normalization (resp : Option Json) :
    (call_local_ai_for_analysis resp).1 = shapeAlerts (classifyResp resp)
    ∧ ((call_local_ai_for_analysis resp).2 = none
        ↔ shapeIsError (classifyResp resp) = false) := by
  match resp with
  | none => exact ⟨rfl, by simp [call_local_ai_for_analysis, classifyResp, shapeIsError]⟩
  | some j =>
    cases j with
    | arr xs => exact ⟨rfl, by simp [call_local_ai_for_analysis, classifyResp, shapeIsError]⟩
    | obj fields =>
      simp only [call_local_ai_for_analysis, classifyResp]
      match h : fields.lookup "severity" with
      | some (.str s) =>
        by_cases hs : s.toUpper ≠ "NONE"
        · simp [hs, shapeAlerts, shapeIsError]
        · by_cases he : fields.isEmpty <;> simp [hs, he, shapeAlerts, shapeIsError]
      | some .null => simp [shapeAlerts, shapeIsError]
      | some (.bool b) => simp [shapeAlerts, shapeIsError]
      | some (.num q) => simp [shapeAlerts, shapeIsError]
      | some (.arr ys) => simp [shapeAlerts, shapeIsError]
      | some (.obj gs) => simp [shapeAlerts, shapeIsError]
      | none =>
        by_cases he : fields.isEmpty <;> simp [he, shapeAlerts, shapeIsError]
    | null => exact ⟨rfl, by simp [call_local_ai_for_analysis, classifyResp, shapeIsError]⟩
    | bool b => exact ⟨rfl, by simp [call_local_ai_for_analysis, classifyResp, shapeIsError]⟩
    | num q => exact ⟨rfl, by simp [call_local_ai_for_analysis, classifyResp, shapeIsError]⟩
    | str s => exact ⟨rfl, by simp [call_local_ai_for_analysis, classifyResp, shapeIsError]⟩

/-! ### Concurrent analysis orchestrator (`trigger_llm_analysis`, tasks.py 313-376) -/

/-- Required keys of an alert dict, as validated before persistence
(tasks.py line 352). -/
def requiredKeys : List String :=
  ["severity", "impact_field", "forecast_details_vi", "actionable_advice_vi"]

/-- Schema validation of a single alert before persistence (tasks.py line
353): the alert must be a dict and every required key must map to a
non-empty string (Python truthiness of a string is non-emptiness). -/
def validAlertShape : Json → Bool
  | .obj fields =>
      requiredKeys.all (fun k =>
        match fields.lookup k with
        | some (.str s) => !s.isEmpty
        | _ => false)
  | _ => false

/-- Result of one per-location analysis task, as returned by
`analyze_single_location` and joined by `as_completed`: the location id,
the alert payloads, and the optional task error string. -/
structure TaskOutcome where
  loc : Nat
  alerts : List Json
  err : Option String

/-- Mutable state of one `trigger_llm_analysis` run: the `ExtremeEvent`
writes issued so far (in order), the `alerts_created_count` counter, and
the three error flags of the source. -/
structure AnalysisRun where
  writes : List (Nat × Json)
  alerts_created : Nat
  aiErr : Bool
  dbErr : Bool
  dataErr : Bool

/-- Persistence of one alert (tasks.py lines 351-368) inside the run-wide
`transaction.atomic` block: an alert failing schema validation is dropped.
Once an earlier write of the run has failed, Django has marked the
connection `needs_rollback`, so this alert's `create` raises
`TransactionManagementError`, which the handler swallows — the state is
unchanged and no further write of the run succeeds.  Otherwise a valid
alert is written unless the database raises for it (the `dbFail` oracle),
in which case the handler sets the DB-error flag and the loop moves to the
next alert. -/
def processAlert (dbFail : Nat → Json → Bool) (loc : Nat)
    (st : AnalysisRun) (a : Json) : AnalysisRun :=
  if validAlertShape a then
    if st.dbErr then st
    else if dbFail loc a then {st with dbErr := true}
    else {st with writes := st.writes ++ [(loc, a)],
                  alerts_created := st.alerts_created + 1}
  else st

/-- Handling of one completed task (tasks.py lines 334-369): a non-empty
task error other than `"Not enough data"` sets the AI-error flag and skips
the location; `"Not enough data"` sets the data flag and skips; otherwise
each alert is run through `processAlert`. -/
def processOutcome (dbFail : Nat → Json → Bool)
    (st : AnalysisRun) (o : TaskOutcome) : AnalysisRun :=
  match o.err with
  | some e =>
      if e ≠ "" ∧ e ≠ "Not enough data" then {st with aiErr := true}
      else if e = "Not enough data" then {st with dataErr := true}
      else o.alerts.foldl (processAlert dbFail o.loc) st
  | none => o.alerts.foldl (processAlert dbFail o.loc) st

/-- The fleet-wide analysis run of `trigger_llm_analysis`, folded over the
per-location outcomes in completion order. -/
def trigger_llm_analysis (dbFail : Nat → Json → Bool)
    (outcomes : List TaskOutcome) : AnalysisRun :=
  outcomes.foldl (processOutcome dbFail) ⟨[], 0, false, false, false⟩

/-- Commit semantics of the `@transaction.atomic` decorator on
`trigger_llm_analysis` (tasks.py line 313): every `ExtremeEvent` write of
the whole fleet run is issued inside one single database transaction.  A
caught write failure has marked the connection `needs_rollback`, so on
exit of the decorated function the transaction is rolled back and every
write of the run is discarded; with no write failure all writes commit
together. -/
def trigger_llm_analysis_committed (dbFail : Nat → Json → Bool)
    (outcomes : List TaskOutcome) : List (Nat × Json) :=
  if (trigger_llm_analysis dbFail outcomes).dbErr then []
  else (trigger_llm_analysis dbFail outcomes).writes

/-- Transaction structure of `trigger_llm_analysis`: the run issues its
writes in a single database transaction spanning all locations, so the
committed writes form exactly one group — whatever survived that one
transaction. -/
def trigger_llm_analysis_txGroups (dbFail : Nat → Json → Bool)
    (outcomes : List TaskOutcome) : List (List (Nat × Json)) :=
  [trigger_llm_analysis_committed dbFail outcomes]

/-- Whether a task outcome's alerts reach the persistence loop (its error
string is absent or empty, mirroring Python truthiness). -/
def outcomeProcessed (o : TaskOutcome) : Bool := o.err.getD "" == ""

/-- Closed form (claim side) of all schema-valid alert writes a fleet run
issues while its transaction is healthy: for each outcome whose alerts are
processed, every schema-valid alert, tagged with its location, in order. -/
def validWrites : List TaskOutcome → List (Nat × Json)
  | [] => []
  | o :: os =>
      (if outcomeProcessed o then
        (o.alerts.filter validAlertShape).map (fun a => (o.loc, a))
      else []) ++ validWrites os

/-- Closed form (claim side) of the run's DB-error flag: set exactly when
some processed outcome holds a schema-valid alert on which the database
fails. -/
def expectedDbErr (dbFail : Nat → Json → Bool) : List TaskOutcome → Bool
  | [] => false
  | o :: os =>
      (outcomeProcessed o
        && o.alerts.any (fun a => validAlertShape a && dbFail o.loc a))
      || expectedDbErr dbFail os

theorem processAlert_of_dbErr (dbFail : Nat → Json → Bool) (loc : Nat)
    (st : AnalysisRun) (a : Json) (h : st.dbErr = true) :
    processAlert dbFail loc st a = st := by
  cases hv : validAlertShape a with
  | false => simp [processAlert, hv]
  | true => simp [processAlert, hv, h]

theorem foldl_processAlert_poisoned (dbFail : Nat → Json → Bool) (loc : Nat)
    (as : List Json) (st : AnalysisRun) (h : st.dbErr = true) :
    as.foldl (processAlert dbFail loc) st = st := by
  induction as with
  | nil => rfl
  | cons a as ih =>
    rw [List.foldl_cons, processAlert_of_dbErr dbFail loc st a h]
    exact ih

theorem foldl_processAlert_dbErr (dbFail : Nat → Json → Bool) (loc : Nat)
    (as : List Json) (st : AnalysisRun) :
    (as.foldl (processAlert dbFail loc) st).dbErr
      = (st.dbErr || as.any (fun a => validAlertShape a && dbFail loc a)) := by
  induction as generalizing st with
  | nil => simp
  | cons a as ih =>
    cases hv : validAlertShape a with
    | false => simp [List.foldl_cons, processAlert, hv, ih]
    | true =>
      cases hd : st.dbErr with
      | true =>
        rw [List.foldl_cons, processAlert_of_dbErr dbFail loc st a hd, ih, hd]
        simp
      | false =>
        cases hf : dbFail loc a with
        | false => simp [List.foldl_cons, processAlert, hv, hd, hf, ih]
        | true =>
          rw [List.foldl_cons,
            show processAlert dbFail loc st a = {st with dbErr := true} by
              simp [processAlert, hv, hd, hf],
            foldl_processAlert_poisoned dbFail loc as _ rfl]
          simp [hv, hf]

theorem foldl_processAlert_writes_ok (dbFail : Nat → Json → Bool) (loc : Nat)
    (as : List Json) :
    ∀ st : AnalysisRun,
      as.any (fun a => validAlertShape a && dbFail loc a) = false →
      st.dbErr = false →
      ((as.foldl (processAlert dbFail loc) st).writes
          = st.writes ++ (as.filter validAlertShape).map (fun a => (loc, a))
       ∧ (as.foldl (processAlert dbFail loc) st).dbErr = false) := by
  induction as with
  | nil =>
    intro st _ hd
    simpa using hd
  | cons a as ih =>
    intro st has hd
    have hsplit : (validAlertShape a && dbFail loc a) = false
        ∧ as.any (fun x => validAlertShape x && dbFail loc x) = false := by
      simpa [List.any_cons, Bool.or_eq_false_iff] using has
    cases hv : validAlertShape a with
    | false =>
      have step : processAlert dbFail loc st a = st := by
        simp [processAlert, hv]
      rw [List.foldl_cons, step]
      have ihr := ih st hsplit.2 hd
      refine ⟨?_, ihr.2⟩
      rw [ihr.1]
      simp [hv]
    | true =>
      have hf : dbFail loc a = false := by
        have hb := hsplit.1
        rwa [hv, Bool.true_and] at hb
      have step : processAlert dbFail loc st a
          = {st with writes := st.writes ++ [(loc, a)],
                     alerts_created := st.alerts_created + 1} := by
        simp [processAlert, hv, hd, hf]
      rw [List.foldl_cons, step]
      have ihr := ih ({st with writes := st.writes ++ [(loc, a)],
                               alerts_created := st.alerts_created + 1})
        hsplit.2 hd
      refine ⟨?_, ihr.2⟩
      rw [ihr.1]
      simp [hv, List.append_assoc]

theorem foldl_processOutcome_dbErr (dbFail : Nat → Json → Bool)
    (os : List TaskOutcome) (st : AnalysisRun) :
    (os.foldl (processOutcome dbFail) st).dbErr
      = (st.dbErr || expectedDbErr dbFail os) := by
  induction os generalizing st with
  | nil => simp [expectedDbErr]
  | cons o os ih =>
    rw [List.foldl_cons, ih]
    match he : o.err with
    | none =>
      simp [processOutcome, he, expectedDbErr, outcomeProcessed,
        foldl_processAlert_dbErr, Bool.or_assoc]
    | some e =>
      by_cases h1 : e = ""
      · subst h1
        simp [processOutcome, he, expectedDbErr, outcomeProcessed,
          foldl_processAlert_dbErr, Bool.or_assoc]
      · by_cases h2 : e = "Not enough data"
        · subst h2
          simp [processOutcome, he, expectedDbErr, outcomeProcessed]
        · have h1b : (e == "") = false := by
            simpa using h1
          simp [processOutcome, he, h1, h2, expectedDbErr, outcomeProcessed, h1b]

theorem foldl_processOutcome_writes_ok (dbFail : Nat → Json → Bool)
    (os : List TaskOutcome) :
    ∀ st : AnalysisRun,
      expectedDbErr dbFail os = false →
      st.dbErr = false →
      ((os.foldl (processOutcome dbFail) st).writes
          = st.writes ++ validWrites os
       ∧ (os.foldl (processOutcome dbFail) st).dbErr = false) := by
  induction os with
  | nil =>
    intro st _ hd
    simpa [validWrites] using hd
  | cons o os ih =>
    intro st hos hd
    have hsplit : (outcomeProcessed o
          && o.alerts.any (fun a => validAlertShape a && dbFail o.loc a)) = false
        ∧ expectedDbErr dbFail os = false := by
      simpa [expectedDbErr, Bool.or_eq_false_iff] using hos
    rw [List.foldl_cons]
    match he : o.err with
    | none =>
      have hproc : outcomeProcessed o = true := by
        simp [outcomeProcessed, he]
      have hany : o.alerts.any (fun a => validAlertShape a && dbFail o.loc a)
          = false := by
        have hb := hsplit.1
        rwa [hproc, Bool.true_and] at hb
      have step : processOutcome dbFail st o
          = o.alerts.foldl (processAlert dbFail o.loc) st := by
        simp [processOutcome, he]
      rw [step]
      have halert := foldl_processAlert_writes_ok dbFail o.loc o.alerts st hany hd
      have ihr := ih _ hsplit.2 halert.2
      refine ⟨?_, ihr.2⟩
      rw [ihr.1, halert.1]
      simp [validWrites, hproc, List.append_assoc]
    | some e =>
      by_cases h1 : e = ""
      · subst h1
        have hproc : outcomeProcessed o = true := by
          simp [outcomeProcessed, he]
        have hany : o.alerts.any (fun a => validAlertShape a && dbFail o.loc a)
            = false := by
          have hb := hsplit.1
          rwa [hproc, Bool.true_and] at hb
        have step : processOutcome dbFail st o
            = o.alerts.foldl (processAlert dbFail o.loc) st := by
          simp [processOutcome, he]
        rw [step]
        have halert := foldl_processAlert_writes_ok dbFail o.loc o.alerts st hany hd
        have ihr := ih _ hsplit.2 halert.2
        refine ⟨?_, ihr.2⟩
        rw [ihr.1, halert.1]
        simp [validWrites, hproc, List.append_assoc]
      · have hproc : outcomeProcessed o = false := by
          simp [outcomeProcessed, he, h1]
        by_cases h2 : e = "Not enough data"
        · subst h2
          have step : processOutcome dbFail st o = {st with dataErr := true} := by
            simp [processOutcome, he]
          rw [step]
          have ihr := ih ({st with dataErr := true}) hsplit.2 hd
          refine ⟨?_, ihr.2⟩
          rw [ihr.1]
          simp [validWrites, hproc]
        · have step : processOutcome dbFail st o = {st with aiErr := true} := by
            simp [processOutcome, he, h1, h2]
          rw [step]
          have ihr := ih ({st with aiErr := true}) hsplit.2 hd
          refine ⟨?_, ihr.2⟩
          rw [ihr.1]
          simp [validWrites, hproc]

/-- C3, counterexample.  The claim states that persistence is per-location
atomic: never one cross-location transaction, and one location's write
failure never rolls back or prevents another location's valid writes.  Both
parts fail concretely.  First, on a run joining two locations (ids 1 and
2), each contributing one schema-valid alert with no database failure, the
single `transaction.atomic` transaction group contains the writes of both
distinct locations.  Second, on a run where location 2's valid alert is
written first and location 1's write then fails, the poisoned transaction
is rolled back at exit and nothing at all is committed — location 2's
already-valid write included. -/
theorem C3_counterexample :
    trigger_llm_analysis_txGroups (fun _ _ => false)
      [⟨1, [Json.obj [("severity", Json.str "HIGH"),
                      ("impact_field", Json.str "AGRICULTURE"),
                      ("forecast_details_vi", Json.str "kho han"),
                      ("actionable_advice_vi", Json.str "tuoi nuoc")]], none⟩,
       ⟨2, [Json.obj [("severity", Json.str "MEDIUM"),
                      ("impact_field", Json.str "PUBLIC_HEALTH"),
                      ("forecast_details_vi", Json.str "nang nong"),
                      ("actionable_advice_vi", Json.str "uong nuoc")]], none⟩]
      = [[(1, Json.obj [("severity", Json.str "HIGH"),
                        ("impact_field", Json.str "AGRICULTURE"),
                        ("forecast_details_vi", Json.str "kho han"),
                        ("actionable_advice_vi", Json.str "tuoi nuoc")]),
          (2, Json.obj [("severity", Json.str "MEDIUM"),
                        ("impact_field", Json.str "PUBLIC_HEALTH"),
                        ("forecast_details_vi", Json.str "nang nong"),
                        ("actionable_advice_vi", Json.str "uong nuoc")])]]
    ∧ (1 : Nat) ≠ 2
    ∧ trigger_llm_analysis_txGroups (fun l _ => l == 1)
      [⟨2, [Json.obj [("severity", Json.str "MEDIUM"),
                      ("impact_field", Json.str "PUBLIC_HEALTH"),
                      ("forecast_details_vi", Json.str "nang nong"),
                      ("actionable_advice_vi", Json.str "uong nuoc")]], none⟩,
       ⟨1, [Json.obj [("severity", Json.str "HIGH"),
                      ("impact_field", Json.str "AGRICULTURE"),
                      ("forecast_details_vi", Json.str "kho han"),
                      ("actionable_advice_vi", Json.str "tuoi nuoc")]], none⟩]
      = [[]] :=
  ⟨rfl, by decide, rfl⟩

/-- C3, amended: in `analyzeAll`, all alert writes of one fleet run are
issued inside a single run-wide transaction spanning every location (the
whole function is wrapped in one `transaction.atomic`), and the run is
all-or-nothing: when no write fails, the one transaction commits every
schema-valid alert of every processed location (`validWrites`); when any
write fails, the connection is marked for rollback — later creates raise
and are swallowed — and at exit the transaction is rolled back, committing
nothing.  The run's DB-error flag is set exactly when some processed
outcome holds a schema-valid alert whose write fails (`expectedDbErr`). -/
theorem C3_single_transaction (dbFail : Nat → Json → Bool)
    (outcomes : List TaskOutcome) :
    (trigger_llm_analysis dbFail outcomes).dbErr
        = expectedDbErr dbFail outcomes
    ∧ trigger_llm_analysis_txGroups dbFail outcomes
        = [if expectedDbErr dbFail outcomes then [] else validWrites outcomes] := by
  have hdb : (trigger_llm_analysis dbFail outcomes).dbErr
      = expectedDbErr dbFail outcomes := by
    rw [trigger_llm_analysis, foldl_processOutcome_dbErr]
    simp
  refine ⟨hdb, ?_⟩
  rw [trigger_llm_analysis_txGroups, trigger_llm_analysis_committed, hdb]
  cases he : expectedDbErr dbFail outcomes with
  | true => simp
  | false =>
    have hw := (foldl_processOutcome_writes_ok dbFail outcomes
      ⟨[], 0, false, false, false⟩ he rfl).1
    rw [trigger_llm_analysis]
    simp [hw]

/-! ### Time-series store and ingestion engine
(`ingest_data_for_single_location`, tasks.py 378-446; `WeatherData.Meta`,
models.py 47-50) -/

/-- A stored `WeatherData` row.  The `Decimal` metric columns are modelled
as integers scaled to the column precision; their values are irrelevant to
the claims, only the `(location, record_time)` key matters.  `record_time`
is the UTC day of the upstream `date` field. -/
structure WeatherRecord where
  location_id : Nat
  record_time : Nat
  data_type : String
  temp_c : Option Int
  humidity : Option Int
  uv_index : Option Int
  wind_kph : Option Int
deriving DecidableEq, Repr

/-- Whether the store already holds a row for the `(location, record_time)`
key of the `unique_together` constraint (models.py line 49). -/
def hasKey (db : List WeatherRecord) (loc t : Nat) : Bool :=
  db.any (fun r => r.location_id == loc && r.record_time == t)

/-- Insertion of one row under `bulk_create(..., ignore_conflicts=True)`
(tasks.py line 438): a row whose unique key is already present is silently
skipped and the existing row is left untouched. -/
def insertIgnoreConflict (db : List WeatherRecord) (r : WeatherRecord) :
    List WeatherRecord :=
  if hasKey db r.location_id r.record_time then db else db ++ [r]

/-- The set-insert of a batch of rows, row by row in batch order, skipping
keys already present in the store or earlier in the batch. -/
def bulk_create_ignore_conflicts (db : List WeatherRecord)
    (rs : List WeatherRecord) : List WeatherRecord :=
  rs.foldl insertIgnoreConflict db

/-- One upstream `forecastday` entry.  `date` is `none` when the record is
malformed (its parsing in the source raises and the record is skipped with
a warning). -/
structure RawDay where
  date : Option Nat
  avgtemp_c : Option Int
  avghumidity : Option Int
  uv : Option Int
  maxwind_kph : Option Int
deriving DecidableEq, Repr

/-- Outcome of `call_weather_api_from_task` as consumed by the ingestion
code: a payload with a `forecast.forecastday` list, a payload lacking those
keys (no records and no error string), or a typed failure. -/
inductive FetchResult where
  | ok (days : List RawDay)
  | badShape
  | fail (msg : String)

/-- Mapping of one upstream day to a `WeatherData` row (tasks.py lines
401-411 and 420-430); a malformed day yields no row. -/
def parseDay (locId : Nat) (dtype : String) (d : RawDay) : Option WeatherRecord :=
  match d.date with
  | some t => some ⟨locId, t, dtype, d.avgtemp_c, d.avghumidity, d.uv, d.maxwind_kph⟩
  | none => none

/-- Records and error flag extracted from one source fetch: a failure sets
the `errors_occurred` flag, a wrong-shaped payload sets nothing. -/
def recordsOf (fr : FetchResult) (locId : Nat) (dtype : String) :
    List WeatherRecord × Bool :=
  match fr with
  | .ok days => (days.filterMap (parseDay locId dtype), false)
  | .badShape => ([], false)
  | .fail _ => ([], true)

/-- All rows a run obtains: the parsed history days followed by the parsed
forecast days (`all_records_to_insert`). -/
def obtainedRecords (locId : Nat) (hist fc : FetchResult) : List WeatherRecord :=
  (recordsOf hist locId "HISTORY").1 ++ (recordsOf fc locId "FORECAST").1

/-- Whether a fetch outcome is a typed source failure. -/
def fetchFailed : FetchResult → Bool
  | .fail _ => true
  | _ => false

/-- Embedding of `ingest_data_for_single_location` (tasks.py 378-446) after
the location has been resolved: history and forecast are fetched, their
parsable days become rows, and if any row was obtained the batch is
set-inserted and the run reports success; with no rows at all the run
reports success exactly when neither source failed.  Result: (success
flag, store after the run). -/
def ingest_data_for_single_location (locId : Nat) (hist fc : FetchResult)
    (db : List WeatherRecord) : Bool × List WeatherRecord :=
  if (obtainedRecords locId hist fc).isEmpty then
    (!((recordsOf hist locId "HISTORY").2 || (recordsOf fc locId "FORECAST").2), db)
  else
    (true, bulk_create_ignore_conflicts db (obtainedRecords locId hist fc))

theorem sublist_insertIgnoreConflict (db : List WeatherRecord)
    (r : WeatherRecord) : db.Sublist (insertIgnoreConflict db r) := by
  unfold insertIgnoreConflict
  split
  · exact List.Sublist.refl db
  · exact List.sublist_append_left db [r]

theorem sublist_bulk_create (db : List WeatherRecord) (rs : List WeatherRecord) :
    db.Sublist (bulk_create_ignore_conflicts db rs) := by
  induction rs generalizing db with
  | nil => exact List.Sublist.refl db
  | cons r rs ih =>
    exact (sublist_insertIgnoreConflict db r).trans (ih (insertIgnoreConflict db r))

theorem hasKey_insertIgnoreConflict (db : List WeatherRecord)
    (r : WeatherRecord) (loc t : Nat) (h : hasKey db loc t = true) :
    hasKey (insertIgnoreConflict db r) loc t = true := by
  unfold insertIgnoreConflict
  split
  · exact h
  · simp only [hasKey, List.any_append]
    simp only [hasKey] at h
    simp [h]

theorem hasKey_insert_self (db : List WeatherRecord) (r : WeatherRecord) :
    hasKey (insertIgnoreConflict db r) r.location_id r.record_time = true := by
  unfold insertIgnoreConflict
  split
  · assumption
  · simp [hasKey, List.any_append]

theorem hasKey_bulk_create (db : List WeatherRecord) (rs : List WeatherRecord)
    (loc t : Nat) (h : hasKey db loc t = true) :
    hasKey (bulk_create_ignore_conflicts db rs) loc t = true := by
  induction rs generalizing db with
  | nil => exact h
  | cons r rs ih =>
    exact ih (insertIgnoreConflict db r) (hasKey_insertIgnoreConflict db r loc t h)

theorem hasKey_bulk_create_of_mem (db : List WeatherRecord)
    (rs : List WeatherRecord) (r : WeatherRecord) (h : r ∈ rs) :
    hasKey (bulk_create_ignore_conflicts db rs) r.location_id r.record_time = true := by
  induction rs generalizing db with
  | nil => cases h
  | cons s rs ih =>
    rcases List.mem_cons.mp h with rfl | hmem
    · exact hasKey_bulk_create (insertIgnoreConflict db r) rs _ _
        (hasKey_insert_self db r)
    · exact ih (insertIgnoreConflict db s) hmem

theorem bulk_create_noop (db : List WeatherRecord) (rs : List WeatherRecord)
    (h : ∀ r ∈ rs, hasKey db r.location_id r.record_time = true) :
    bulk_create_ignore_conflicts db rs = db := by
  induction rs with
  | nil => rfl
  | cons r rs ih =>
    have hr : insertIgnoreConflict db r = db := by
      unfold insertIgnoreConflict
      rw [if_pos (h r (List.mem_cons_self r rs))]
    show bulk_create_ignore_conflicts (insertIgnoreConflict db r) rs = db
    rw [hr]
    exact ih (fun s hs => h s (List.mem_cons_of_mem r hs))

theorem bulk_create_idem (db : List WeatherRecord) (rs : List WeatherRecord) :
    bulk_create_ignore_conflicts (bulk_create_ignore_conflicts db rs) rs
      = bulk_create_ignore_conflicts db rs :=
  bulk_create_noop _ rs (fun r hr => hasKey_bulk_create_of_mem db rs r hr)

/-- C5: running ingest for a location twice over an identical fetch result
produces exactly the same store (hence the same row count) as running it
once, and the set-insert never removes or overwrites existing rows — the
prior store is a sublist of the result. -/
theorem C5_ingest_idempotent (locId : Nat) (hist fc : FetchResult)
    (db : List WeatherRecord) :
    ingest_data_for_single_location locId hist fc
        (ingest_data_for_single_location locId hist fc db).2
      = ingest_data_for_single_location locId hist fc db
    ∧ db.Sublist (ingest_data_for_single_location locId hist fc db).2 := by
  by_cases h : (obtainedRecords locId hist fc).isEmpty
  · constructor
    · simp [ingest_data_for_single_location, h]
    · simp [ingest_data_for_single_location, h]
  · constructor
    · simp [ingest_data_for_single_location, h, bulk_create_idem]
    · simp only [ingest_data_for_single_location, h, if_neg]
      simpa using sublist_bulk_create db (obtainedRecords locId hist fc)

/-- C7: for every run of ingest on one location, a partial source failure
is non-fatal — whenever the run obtained any records (in particular when
one source failed and the other succeeded), the run reports success and
every obtained record's key is present in the resulting store; conversely
the run reports failure only when no usable record was produced at all, in
which case the store is untouched. -/
theorem C7_partial_failure_nonfatal (locId : Nat) (hist fc : FetchResult)
    (db : List WeatherRecord) :
    ((fetchFailed hist || fetchFailed fc) = true →
      obtainedRecords locId hist fc ≠ [] →
        (ingest_data_for_single_location locId hist fc db).1 = true
        ∧ ∀ r ∈ obtainedRecords locId hist fc,
            hasKey (ingest_data_for_single_location locId hist fc db).2
              r.location_id r.record_time = true)
    ∧ ((ingest_data_for_single_location locId hist fc db).1 = false →
        obtainedRecords locId hist fc = []
        ∧ (ingest_data_for_single_location locId hist fc db).2 = db) := by
  constructor
  · intro _ hne
    have h : ¬(obtainedRecords locId hist fc).isEmpty := by
      simpa [List.isEmpty_iff] using hne
    constructor
    · simp [ingest_data_for_single_location, h]
    · intro r hr
      simp only [ingest_data_for_single_location, h, if_neg]
      simpa using hasKey_bulk_create_of_mem db (obtainedRecords locId hist fc) r hr
  · intro hfail
    by_cases h : (obtainedRecords locId hist fc).isEmpty
    · exact ⟨List.isEmpty_iff.mp h, by simp [ingest_data_for_single_location, h]⟩
    · exfalso
      simp [ingest_data_for_single_location, h] at hfail

/-- C7, witness: with the history fetch failing and the forecast yielding
one parsable day, the run succeeds and the obtained row's key is stored. -/
theorem C7_witness :
    (ingest_data_for_single_location 1 (.fail "API Timeout")
        (.ok [⟨some 5, some 30, some 80, some 7, some 10⟩]) []).1 = true
    ∧ hasKey (ingest_data_for_single_location 1 (.fail "API Timeout")
        (.ok [⟨some 5, some 30, some 80, some 7, some 10⟩]) []).2 1 5 = true := by
  have h := C7_partial_failure_nonfatal 1 (.fail "API Timeout")
    (.ok [⟨some 5, some 30, some 80, some 7, some 10⟩]) []
  have hmain := h.1 (by decide) (by decide)
  refine ⟨hmain.1, ?_⟩
  exact hmain.2 ⟨1, 5, "FORECAST", some 30, some 80, some 7, some 10⟩ (by decide)

/-! ### Per-location analysis (`analyze_single_location`, tasks.py 285-309) -/

/-- Ordered insertion for the insertion sort modelling the ORM `order_by`
and the Python `sorted` call. -/
def insertLe {α : Type} (le : α → α → Bool) (a : α) : List α → List α
  | [] => [a]
  | b :: bs => if le a b then a :: b :: bs else b :: insertLe le a bs

/-- Insertion sort by a boolean comparison. -/
def sortLe {α : Type} (le : α → α → Bool) : List α → List α
  | [] => []
  | a :: as => insertLe le a (sortLe le as)

theorem length_insertLe {α : Type} (le : α → α → Bool) (a : α) (l : List α) :
    (insertLe le a l).length = l.length + 1 := by
  induction l with
  | nil => rfl
  | cons b bs ih =>
    unfold insertLe
    split
    · simp
    · simp [ih]

theorem length_sortLe {α : Type} (le : α → α → Bool) (l : List α) :
    (sortLe le l).length = l.length := by
  induction l with
  | nil => rfl
  | cons a as ih => simp [sortLe, length_insertLe, ih]

/-- The window `analyze_single_location` reads (tasks.py line 289): the
location's stored rows ordered by descending `record_time`, limited to the
latest 14. -/
def latestWindow (locId : Nat) (weather : List WeatherRecord) :
    List WeatherRecord :=
  (sortLe (fun r s => decide (s.record_time ≤ r.record_time))
    (weather.filter (fun r => r.location_id == locId))).take 14

/-- Embedding of `analyze_single_location` (tasks.py 285-309): with fewer
than 14 rows in the window the task returns the distinguished
`"Not enough data"` outcome without consulting the inference service;
otherwise the window is re-sorted by ascending `record_time` and submitted
to the inference oracle.  The second component records whether the
inference service was invoked. -/
def analyze_single_location (locId : Nat) (weather : List WeatherRecord)
    (ai : List WeatherRecord → List Json × Option String) :
    TaskOutcome × Bool :=
  if (latestWindow locId weather).length < 14 then
    (⟨locId, [], some "Not enough data"⟩, false)
  else
    (⟨locId,
      (ai (sortLe (fun r s => decide (r.record_time ≤ s.record_time))
        (latestWindow locId weather))).1,
      (ai (sortLe (fun r s => decide (r.record_time ≤ s.record_time))
        (latestWindow locId weather))).2⟩, true)

/-- C6: for every location with fewer than 14 stored weather records,
`analyze_single_location` yields the distinguished `"Not enough data"`
outcome with an empty alert list, and the inference service is never
invoked. -/
theorem C6_insufficient_data (locId : Nat) (weather : List WeatherRecord)
    (ai : List WeatherRecord → List Json × Option String)
    (h : (weather.filter (fun r => r.location_id == locId)).length < 14) :
    analyze_single_location locId weather ai
      = (⟨locId, [], some "Not enough data"⟩, false) := by
  have hlen : (latestWindow locId weather).length < 14 := by
    rw [latestWindow, List.length_take, length_sortLe]
    omega
  rw [analyze_single_location, if_pos hlen]

/-- C6, witness: a location with no stored records is reported as lacking
data and the inference oracle is not called. -/
theorem C6_witness :
    analyze_single_location 3 []
        (fun _ => ([Json.str "should never be used"], none))
      = (⟨3, [], some "Not enough data"⟩, false) :=
  C6_insufficient_data 3 [] (fun _ => ([Json.str "should never be used"], none))
    (by decide)

/-! ### Location registry and the advisory path's coordinate sync
(`get_ai_advice`, views.py 352-374) -/

/-- A `Location` row (models.py 21-32).  The `Decimal(10,6)` coordinate
columns are exact rationals. -/
structure Location where
  location_id : Nat
  name_en : String
  latitude : ℚ
  longitude : ℚ
  is_active : Bool
  users : List Nat
deriving DecidableEq, Repr

/-- Replacement of the first element satisfying a test (used to express
what a single-row ORM `save` does to the table). -/
def replaceFirstBy {α : Type} (p : α → Bool) (a : α) : List α → List α
  | [] => []
  | x :: xs => if p x then a :: xs else x :: replaceFirstBy p a xs

/-- Case-insensitive equality of location names, modelling the ORM
`name_en__iexact` lookups; written over the character lists so that it
evaluates by reduction. -/
def nameMatches (stored query : String) : Bool :=
  stored.data.map Char.toLower == query.data.map Char.toLower

/-- Coordinate rewrite of an existing `Location` (views.py 368-374): the
stored pair is overwritten exactly when the newly observed value differs
from the stored one by more than `Decimal('0.001')` in latitude or in
longitude; the flag records whether a save was issued. -/
def coords_update_step (l : Location) (lat lon : ℚ) : Location × Bool :=
  if 1/1000 < |l.latitude - lat| ∨ 1/1000 < |l.longitude - lon| then
    ({l with latitude := lat, longitude := lon}, true)
  else (l, false)

/-- The advisory path's `get_or_create` on `name_en__iexact` followed by
the tolerance-gated coordinate update (views.py 356-374).  Returns the
table after the call, the id of the matched or created row, and whether a
coordinate save was issued. -/
def syncLocations (name : String) (lat lon : ℚ) (newId : Nat) :
    List Location → List Location × Nat × Bool
  | [] => ([⟨newId, name, lat, lon, true, []⟩], (newId, false))
  | l :: rest =>
      if nameMatches l.name_en name then
        ((coords_update_step l lat lon).1 :: rest,
         (l.location_id, (coords_update_step l lat lon).2))
      else
        ((l :: (syncLocations name lat lon newId rest).1),
         (syncLocations name lat lon newId rest).2)

theorem coords_update_step_true_iff (l : Location) (lat lon : ℚ) :
    (coords_update_step l lat lon).2 = true
      ↔ (1/1000 < |l.latitude - lat| ∨ 1/1000 < |l.longitude - lon|) := by
  by_cases hc : 1/1000 < |l.latitude - lat| ∨ 1/1000 < |l.longitude - lon|
  · rw [coords_update_step, if_pos hc]
    simpa using hc
  · rw [coords_update_step, if_neg hc]
    simpa [not_or, not_lt] using hc

theorem coords_update_step_of_false (l : Location) (lat lon : ℚ)
    (h : (coords_update_step l lat lon).2 = false) :
    (coords_update_step l lat lon).1 = l := by
  by_cases hc : 1/1000 < |l.latitude - lat| ∨ 1/1000 < |l.longitude - lon|
  · rw [coords_update_step, if_pos hc] at h
    simp at h
  · rw [coords_update_step, if_neg hc]

/-- C9: when the advisory path observes new coordinates for an
already-known location, a coordinate save is issued if and only if the
observed value differs from the stored one by more than 0.001 degrees in
latitude or longitude; the row attached to the advisory is that location,
the table is the original with only that row replaced, and when no save is
issued the table is completely unchanged. -/
theorem C9_coordinate_tolerance (locs : List Location) (name : String)
    (lat lon : ℚ) (newId : Nat) (l : Location)
    (h : locs.find? (fun x => nameMatches x.name_en name) = some l) :
    ((syncLocations name lat lon newId locs).2.2 = true
        ↔ (1/1000 < |l.latitude - lat| ∨ 1/1000 < |l.longitude - lon|))
    ∧ (syncLocations name lat lon newId locs).2.1 = l.location_id
    ∧ (syncLocations name lat lon newId locs).1
        = replaceFirstBy (fun x => nameMatches x.name_en name)
            (coords_update_step l lat lon).1 locs
    ∧ ((syncLocations name lat lon newId locs).2.2 = false →
        (syncLocations name lat lon newId locs).1 = locs) := by
  induction locs with
  | nil => simp at h
  | cons l0 rest ih =>
    cases hp : nameMatches l0.name_en name with
    | true =>
      have hl : l0 = l := by
        simp [List.find?, hp] at h
        exact h
      subst hl
      refine ⟨?_, ?_, ?_, ?_⟩
      · simpa [syncLocations, hp] using coords_update_step_true_iff l0 lat lon
      · simp [syncLocations, hp]
      · simp [replaceFirstBy, syncLocations, hp]
      · intro hw
        have hw2 : (coords_update_step l0 lat lon).2 = false := by
          simpa [syncLocations, hp] using hw
        simp [syncLocations, hp, coords_update_step_of_false l0 lat lon hw2]
    | false =>
      have h2 : rest.find? (fun x => nameMatches x.name_en name) = some l := by
        simpa [List.find?, hp] using h
      have ihr := ih h2
      refine ⟨?_, ?_, ?_, ?_⟩
      · simpa [syncLocations, hp] using ihr.1
      · simpa [syncLocations, hp] using ihr.2.1
      · simp only [syncLocations, hp, replaceFirstBy, Bool.false_eq_true,
          if_false]
        simp [ihr.2.2.1]
      · intro hw
        have hw2 : (syncLocations name lat lon newId rest).2.2 = false := by
          simpa [syncLocations, hp] using hw
        simp [syncLocations, hp, ihr.2.2.2 hw2]

/-- C9, witness: for a stored Hanoi row at (21.030, 105.850), an observed
longitude delta of 0.0005 degrees issues no save while a delta of 0.01
degrees does. -/
theorem C9_witness :
    (syncLocations "hanoi" (21030/1000) (105850/1000 + 1/2000) 2
        [⟨1, "Hanoi", 21030/1000, 105850/1000, true, []⟩]).2.2 = false
    ∧ (syncLocations "hanoi" (21030/1000) (105850/1000 + 1/100) 2
        [⟨1, "Hanoi", 21030/1000, 105850/1000, true, []⟩]).2.2 = true := by
  constructor
  · have h := (C9_coordinate_tolerance
      [⟨1, "Hanoi", 21030/1000, 105850/1000, true, []⟩] "hanoi"
      (21030/1000) (105850/1000 + 1/2000) 2
      ⟨1, "Hanoi", 21030/1000, 105850/1000, true, []⟩ rfl).1
    have hcond : ¬((1:ℚ)/1000 < |(21030/1000 : ℚ) - 21030/1000|
        ∨ (1:ℚ)/1000 < |(105850/1000 : ℚ) - (105850/1000 + 1/2000)|) := by
      rw [show (21030/1000 : ℚ) - 21030/1000 = 0 by ring,
        show (105850/1000 : ℚ) - (105850/1000 + 1/2000) = -(1/2000) by ring,
        abs_zero, abs_neg, abs_of_pos (show (0:ℚ) < 1/2000 by norm_num)]
      push_neg
      constructor <;> norm_num
    exact Bool.eq_false_iff.mpr (fun ht => hcond (h.mp ht))
  · exact (C9_coordinate_tolerance
      [⟨1, "Hanoi", 21030/1000, 105850/1000, true, []⟩] "hanoi"
      (21030/1000) (105850/1000 + 1/100) 2
      ⟨1, "Hanoi", 21030/1000, 105850/1000, true, []⟩ rfl).1.mpr
      (by
        right
        rw [show (105850/1000 : ℚ) - (105850/1000 + 1/100) = -(1/100) by ring]
        rw [abs_neg, abs_of_pos (show (0:ℚ) < 1/100 by norm_num)]
        norm_num)

/-! ### Advisory cache (`get_ai_advice`, views.py 198-401; `AdviceCache`) -/

/-- A single advice-or-warning verdict of the inference service
(`{"type": ..., "message_vi": ...}`). -/
structure Advisory where
  advType : String
  message_vi : String
deriving DecidableEq, Repr

/-- A durable `AdviceCache` row. -/
structure AdviceRec where
  location_id : Nat
  generated_time : Nat
  advice_type : String
  message_vi : String
deriving DecidableEq, Repr

/-- The `update_or_create` keyed by location of the hot-cache-hit branch
(views.py 223-233), with Django's lookup semantics: with no row for the
location a row is created; with exactly one row that row's generation
timestamp, type and message are overwritten in place; with two or more
rows — the routine steady state, since the fresh path appends one row per
success — the underlying `get` raises `MultipleObjectsReturned`, the
enclosing handler (views.py line 237) swallows it, and the store is left
unchanged. -/
def advice_update_or_create (loc now : Nat) (t m : String)
    (db : List AdviceRec) : List AdviceRec :=
  if (db.filter (fun r => r.location_id == loc)).length == 0 then
    db ++ [⟨loc, now, t, m⟩]
  else if (db.filter (fun r => r.location_id == loc)).length == 1 then
    replaceFirstBy (fun r => r.location_id == loc) ⟨loc, now, t, m⟩ db
  else db

/-- The durable-store effect of serving a hot-cache hit in `get_ai_advice`
(views.py 216-239): when the location row exists, the `AdviceCache` row for
it is updated-or-created with a fresh generation timestamp taken from the
current clock; with no such location the store is untouched.  The cached
advisory itself is returned to the caller unchanged either way. -/
def get_ai_advice_cacheHit (locs : List Location) (db : List AdviceRec)
    (name : String) (cached : Advisory) (now : Nat) : List AdviceRec :=
  match locs.find? (fun l => nameMatches l.name_en name) with
  | some l => advice_update_or_create l.location_id now cached.advType cached.message_vi db
  | none => db

/-- An upstream-reported coordinate value: a numeric payload, which
`Decimal(str(v))` converts exactly, or a malformed payload on which the
conversion raises `InvalidOperation` (views.py 300-307). -/
inductive RawCoord where
  | num (q : ℚ)
  | malformed
deriving DecidableEq

/-- The `Decimal(str(v))` conversion of one coordinate. -/
def parseDecimal : RawCoord → Option ℚ
  | .num q => some q
  | .malformed => none

/-- Conversion of the upstream coordinate pair: it succeeds only when both
values are present and both parse (views.py 297-311). -/
def parseCoordPair : Option (RawCoord × RawCoord) → Option (ℚ × ℚ)
  | none => none
  | some (a, b) =>
    match parseDecimal a, parseDecimal b with
    | some la, some lo => some (la, lo)
    | _, _ => none

/-- One reduced hourly feature record; only the timestamp used for the
sort is relevant to the claims. -/
structure HourlyFeature where
  time : Nat
deriving DecidableEq, Repr

/-- The state the advisory path can touch: the location registry and the
durable advisory log. -/
structure AdviceState where
  locations : List Location
  advice : List AdviceRec
deriving DecidableEq, Repr

/-- Response of the advisory endpoint: an advisory payload with HTTP 200,
or an error payload with its HTTP status. -/
inductive AdviceResp where
  | ok (a : Advisory)
  | err (status : Nat) (message_vi : String)
deriving DecidableEq, Repr

/-- Whether a response carries an advisory rather than an error. -/
def isAdvisoryResp : AdviceResp → Bool
  | .ok _ => true
  | .err _ _ => false

/-- Embedding of the fresh-computation path of `get_ai_advice` (views.py
241-401), entered on a hot-cache miss.  Inputs: whether the forecast fetch
failed, the flattened hourly records, the upstream coordinate pair, the
inference oracle, the query name, the id a newly registered location would
get, the clock, and the state.  In source order: a forecast failure or an
empty hourly list yields a 503 error; an undetermined or unparsable
coordinate pair yields a 404 error before the inference call; otherwise
the sorted series is submitted and, on a non-error verdict, the location
is registered or tolerance-updated and one advisory row is appended, the
verdict being returned with 200; an error verdict or an unreachable
service yields a 503 error with no state change.  The final component
records whether the inference service was invoked. -/
def get_ai_advice_fresh (fetchErr : Bool) (hourly : List HourlyFeature)
    (coords : Option (RawCoord × RawCoord))
    (ai : List HourlyFeature → Option Advisory)
    (name : String) (newId now : Nat) (st : AdviceState) :
    AdviceResp × AdviceState × Bool :=
  if fetchErr || hourly.isEmpty then
    (.err 503 "Lỗi khi lấy dữ liệu thời tiết dự báo chi tiết. Vui lòng thử lại sau.",
     st, false)
  else
    match parseCoordPair coords with
    | none =>
        (.err 404 "Không thể xác định tọa độ hợp lệ cho địa điểm này.", st, false)
    | some (lat, lon) =>
      match ai (sortLe (fun a b => decide (a.time ≤ b.time)) hourly) with
      | some a =>
          if a.advType != "error" then
            (.ok a,
             ⟨(syncLocations name lat lon newId st.locations).1,
              st.advice ++ [⟨(syncLocations name lat lon newId st.locations).2.1,
                now, a.advType, a.message_vi⟩]⟩,
             true)
          else (.err 503 a.message_vi, st, true)
      | none =>
          (.err 503 "Không thể kết nối với trợ lý AI lúc này.", st, true)

/-- C1, counterexample.  The claim states that an unparsable coordinate
pair aborts only the registration while the advisory is still computed and
returned; but on a run whose upstream latitude is malformed (forecast and
hourly data fine, inference oracle ready to answer), the endpoint returns
the 404 error response, the inference service is never invoked, and no
advisory is produced. -/
theorem C1_counterexample :
    get_ai_advice_fresh false [⟨0⟩] (some (.malformed, .num 105))
        (fun _ => some ⟨"advice", "thời tiết đẹp"⟩) "Hanoi" 2 10 ⟨[], []⟩
      = (.err 404 "Không thể xác định tọa độ hợp lệ cho địa điểm này.",
         ⟨[], []⟩, false)
    ∧ isAdvisoryResp
        (.err 404 "Không thể xác định tọa độ hợp lệ cho địa điểm này.") = false :=
  ⟨rfl, rfl⟩

/-- C1, amended: in the fresh-advisory computation, an upstream coordinate
pair that fails to parse into `Decimal` form aborts the whole request, not
just the registration: the endpoint returns a 404 error response instead of
an advisory, the inference service is never invoked, and the state
(registry and advisory log) is untouched. -/
theorem C1_coord_parse_aborts_request (fetchErr : Bool)
    (hourly : List HourlyFeature) (coords : Option (RawCoord × RawCoord))
    (ai : List HourlyFeature → Option Advisory) (name : String)
    (newId now : Nat) (st : AdviceState)
    (hfetch : (fetchErr || hourly.isEmpty) = false)
    (hcoord : parseCoordPair coords = none) :
    get_ai_advice_fresh fetchErr hourly coords ai name newId now st
      = (.err 404 "Không thể xác định tọa độ hợp lệ cho địa điểm này.",
         st, false) := by
  rw [get_ai_advice_fresh, if_neg (by simp [hfetch]), hcoord]

/-- C1, amended witness: a concrete run with a malformed longitude is
aborted with the 404 error. -/
theorem C1_witness :
    get_ai_advice_fresh false [⟨3⟩] (some (.num 21, .malformed))
        (fun _ => some ⟨"warning", "mưa to"⟩) "Hue" 5 99 ⟨[], []⟩
      = (.err 404 "Không thể xác định tọa độ hợp lệ cho địa điểm này.",
         ⟨[], []⟩, false) :=
  C1_coord_parse_aborts_request false [⟨3⟩] (some (.num 21, .malformed))
    (fun _ => some ⟨"warning", "mưa to"⟩) "Hue" 5 99 ⟨[], []⟩ rfl rfl

/-- C4, counterexample.  The claim states that no core operation — the
hot-cache-hit branch of `get_ai_advice` included — mutates an existing
`AdviceCache` row or its generation timestamp; but serving a memory-cache
hit for a known location overwrites the location's existing row, replacing
its generation timestamp 5 with the current clock 10, and the original row
is gone from the store. -/
theorem C4_counterexample :
    get_ai_advice_cacheHit [⟨1, "Hanoi", 21, 105, true, []⟩]
        [⟨1, 5, "advice", "trời đẹp"⟩] "hanoi" ⟨"advice", "trời đẹp"⟩ 10
      = [⟨1, 10, "advice", "trời đẹp"⟩]
    ∧ (⟨1, 5, "advice", "trời đẹp"⟩ : AdviceRec) ∉
        ([⟨1, 10, "advice", "trời đẹp"⟩] : List AdviceRec) :=
  ⟨rfl, by decide⟩

theorem filter_eq_nil_of_false {α : Type} (p : α → Bool) (l : List α)
    (h : ∀ x ∈ l, p x = false) : l.filter p = [] := by
  induction l with
  | nil => rfl
  | cons x xs ih =>
    have hx := h x (List.mem_cons_self x xs)
    simp [List.filter_cons, hx,
      ih (fun y hy => h y (List.mem_cons_of_mem x hy))]

theorem filter_append_single {α : Type} (p : α → Bool) (r : α)
    (pre post : List α) (hpre : ∀ x ∈ pre, p x = false)
    (hpost : ∀ x ∈ post, p x = false) (hr : p r = true) :
    (pre ++ r :: post).filter p = [r] := by
  rw [List.filter_append, filter_eq_nil_of_false p pre hpre]
  simp [List.filter_cons, hr, filter_eq_nil_of_false p post hpost]

theorem replaceFirstBy_append {α : Type} (p : α → Bool) (a r : α)
    (pre post : List α) (hpre : ∀ x ∈ pre, p x = false) (hr : p r = true) :
    replaceFirstBy p a (pre ++ r :: post) = pre ++ a :: post := by
  induction pre with
  | nil => simp [replaceFirstBy, hr]
  | cons x xs ih =>
    have hx := hpre x (List.mem_cons_self x xs)
    simp only [List.cons_append, replaceFirstBy, hx, Bool.false_eq_true,
      if_false]
    simp [ih (fun y hy => hpre y (List.mem_cons_of_mem x hy))]

/-- C4, amended: the durable advisory log is append-only on the fresh
path — a successful fresh computation appends exactly one new row, leaving
every existing row in place — but the hot-cache-hit branch is neither
append-only nor a reliable update: when exactly one row exists for the
location, that row is overwritten in place with a fresh generation
timestamp; when two or more rows exist (the routine steady state, since
the fresh path appends one row per success), `update_or_create` raises
`MultipleObjectsReturned`, the handler swallows it, and the store is left
unchanged. -/
theorem C4_advisory_log (fetchErr : Bool) (hourly : List HourlyFeature)
    (coords : Option (RawCoord × RawCoord))
    (ai : List HourlyFeature → Option Advisory) (name : String)
    (newId now : Nat) (st : AdviceState) (lat lon : ℚ) (adv : Advisory)
    (hfetch : (fetchErr || hourly.isEmpty) = false)
    (hcoord : parseCoordPair coords = some (lat, lon))
    (hai : ai (sortLe (fun a b => decide (a.time ≤ b.time)) hourly) = some adv)
    (hty : (adv.advType != "error") = true)
    (pre post : List AdviceRec) (r : AdviceRec) (loc now2 : Nat) (t m : String)
    (hpre : ∀ x ∈ pre, (x.location_id == loc) = false)
    (hpost : ∀ x ∈ post, (x.location_id == loc) = false)
    (hr : (r.location_id == loc) = true)
    (db2 : List AdviceRec)
    (hmany : 2 ≤ (db2.filter (fun x => x.location_id == loc)).length) :
    (get_ai_advice_fresh fetchErr hourly coords ai name newId now st).2.1.advice
        = st.advice
          ++ [⟨(syncLocations name lat lon newId st.locations).2.1, now,
              adv.advType, adv.message_vi⟩]
    ∧ advice_update_or_create loc now2 t m (pre ++ r :: post)
        = pre ++ ⟨loc, now2, t, m⟩ :: post
    ∧ advice_update_or_create loc now2 t m db2 = db2 := by
  refine ⟨?_, ?_, ?_⟩
  · simp [get_ai_advice_fresh, hfetch, hcoord, hai, hty]
  · have hfil : (pre ++ r :: post).filter (fun x => x.location_id == loc)
        = [r] :=
      filter_append_single _ r pre post hpre hpost hr
    rw [advice_update_or_create, hfil]
    rw [if_neg (by simp), if_pos (by simp)]
    exact replaceFirstBy_append _ _ r pre post hpre hr
  · rw [advice_update_or_create,
      if_neg (by simp only [beq_iff_eq]; omega),
      if_neg (by simp only [beq_iff_eq]; omega)]

/-- C4, amended witness: a concrete successful fresh computation appends
one row to an existing one-row log; a concrete cache-hit update-or-create
overwrites the single matching row in place; and with two rows already
present for the location, the cache-hit update-or-create changes
nothing. -/
theorem C4_witness :
    (get_ai_advice_fresh false [⟨3⟩] (some (.num 21, .num 105))
        (fun _ => some ⟨"advice", "nắng nhẹ"⟩) "Hanoi" 7 50
        ⟨[], [⟨9, 1, "advice", "cũ"⟩]⟩).2.1.advice
      = [⟨9, 1, "advice", "cũ"⟩, ⟨7, 50, "advice", "nắng nhẹ"⟩]
    ∧ advice_update_or_create 9 60 "warning" "gió mạnh"
        [⟨9, 1, "advice", "cũ"⟩]
      = [⟨9, 60, "warning", "gió mạnh"⟩]
    ∧ advice_update_or_create 9 60 "warning" "gió mạnh"
        [⟨9, 1, "advice", "a"⟩, ⟨9, 2, "advice", "b"⟩]
      = [⟨9, 1, "advice", "a"⟩, ⟨9, 2, "advice", "b"⟩] := by
  have h := C4_advisory_log false [⟨3⟩] (some (.num 21, .num 105))
    (fun _ => some ⟨"advice", "nắng nhẹ"⟩) "Hanoi" 7 50
    ⟨[], [⟨9, 1, "advice", "cũ"⟩]⟩ 21 105 ⟨"advice", "nắng nhẹ"⟩
    rfl rfl rfl rfl
    [] [] ⟨9, 1, "advice", "cũ"⟩ 9 60 "warning" "gió mạnh"
    (by intro x hx; cases hx) (by intro x hx; cases hx) rfl
    [⟨9, 1, "advice", "a"⟩, ⟨9, 2, "advice", "b"⟩] (by decide)
  exact ⟨h.1, h.2.1, h.2.2⟩

/-! ### Scheduler jobs and location tracking (`track_location`, views.py
129-196; scheduler.py) -/

/-- The operation a per-location one-shot job carries. -/
inductive JobOp where
  | instantIngest (locId : Nat)
  | instantAnalyze (locId : Nat)
deriving DecidableEq, Repr

/-- A registered one-shot job: its id string, its fire time and its
operation. -/
structure Job where
  id : String
  runAt : Nat
  op : JobOp
deriving DecidableEq, Repr

/-- The id of the instant ingestion job for a location
(`f'instant_ingest_{new_loc_id}'`, views.py line 172). -/
def instantIngestId (n : Nat) : String := "instant_ingest_" ++ toString n

/-- The id of the instant analysis job for a location
(`f'instant_analyze_{new_loc_id}'`, views.py line 182). -/
def instantAnalyzeId (n : Nat) : String := "instant_analyze_" ++ toString n

/-- `scheduler.add_job(..., replace_existing=True)`: a pending job with the
same id is atomically superseded. -/
def add_job (jobs : List Job) (j : Job) : List Job :=
  (jobs.filter (fun k => k.id != j.id)) ++ [j]

/-- The whole database state of the core. -/
structure DB where
  locations : List Location
  weather : List WeatherRecord
  events : List (Nat × Json)
  advice : List AdviceRec

/-- The id `get_or_create` assigns to a newly inserted `Location` row
(a fresh value of the auto-increment primary key). -/
def nextLocationId (locs : List Location) : Nat :=
  (locs.map (fun l => l.location_id)).foldr max 0 + 1

/-- Result of one `track_location` request: the database and job registry
after the call, the `add_job` calls the request made (in order), and the
HTTP status. -/
structure TrackResult where
  db : DB
  jobs : List Job
  scheduled : List Job
  status : Nat

/-- Embedding of `track_location` (views.py 129-196): `get_or_create` by
exact name; an existing location gains the subscriber and is re-activated,
with no job scheduled; a brand-new location is inserted and exactly two
one-shot jobs are registered — ingestion 10 seconds out and analysis 120
seconds out, with ids derived from the new location's id and
`replace_existing=True`.  Neither task body runs inside the request: the
weather, event and advisory stores are returned as they were. -/
def track_location (name : String) (lat lon : ℚ) (userId : Nat) (now : Nat)
    (db : DB) (jobs : List Job) : TrackResult :=
  match db.locations.find? (fun l => l.name_en == name) with
  | some l =>
      let updated : Location :=
        { l with
          users := if userId ∈ l.users then l.users else l.users ++ [userId],
          is_active := true }
      let locs2 := replaceFirstBy (fun x => x.name_en == name) updated db.locations
      { db := { db with locations := locs2 },
        jobs := jobs, scheduled := [], status := 201 }
  | none =>
      { db := { db with locations :=
          db.locations
            ++ [⟨nextLocationId db.locations, name, lat, lon, true, [userId]⟩] },
        jobs := add_job (add_job jobs
          ⟨instantIngestId (nextLocationId db.locations), now + 10,
            .instantIngest (nextLocationId db.locations)⟩)
          ⟨instantAnalyzeId (nextLocationId db.locations), now + 120,
            .instantAnalyze (nextLocationId db.locations)⟩,
        scheduled :=
          [⟨instantIngestId (nextLocationId db.locations), now + 10,
            .instantIngest (nextLocationId db.locations)⟩,
           ⟨instantAnalyzeId (nextLocationId db.locations), now + 120,
            .instantAnalyze (nextLocationId db.locations)⟩],
        status := 201 }

theorem instantIds_ne (n : Nat) : instantIngestId n ≠ instantAnalyzeId n := by
  intro h
  have hlen := congrArg String.length h
  rw [instantIngestId, instantAnalyzeId, String.length_append,
    String.length_append] at hlen
  have h15 : ("instant_ingest_" : String).length = 15 := rfl
  have h16 : ("instant_analyze_" : String).length = 16 := rfl
  rw [h15, h16] at hlen
  omega

/-- C8: tracking a brand-new location schedules exactly two one-shot
jobs — an ingestion job firing 10 seconds out and an analysis job firing
120 seconds out — whose ids are the distinct strings deterministically
derived from the new location's id; both fire strictly after the request's
clock, and the request itself executes neither task (the weather, event
and advisory stores are unchanged). -/
theorem C8_track_new_location (name : String) (lat lon : ℚ)
    (userId now : Nat) (db : DB) (jobs : List Job)
    (h : db.locations.find? (fun l => l.name_en == name) = none) :
    (track_location name lat lon userId now db jobs).scheduled
      = [⟨instantIngestId (nextLocationId db.locations), now + 10,
          .instantIngest (nextLocationId db.locations)⟩,
         ⟨instantAnalyzeId (nextLocationId db.locations), now + 120,
          .instantAnalyze (nextLocationId db.locations)⟩]
    ∧ instantIngestId (nextLocationId db.locations)
        ≠ instantAnalyzeId (nextLocationId db.locations)
    ∧ now < now + 10 ∧ now < now + 120
    ∧ (track_location name lat lon userId now db jobs).db.weather = db.weather
    ∧ (track_location name lat lon userId now db jobs).db.events = db.events
    ∧ (track_location name lat lon userId now db jobs).db.advice = db.advice := by
  rw [track_location, h]
  exact ⟨rfl, instantIds_ne _, by omega, by omega, rfl, rfl, rfl⟩

/-- C8, witness: tracking a first location in an empty system schedules
the two jobs with ids derived from the fresh id 1. -/
theorem C8_witness :
    (track_location "Hanoi" 21 105 4 100 ⟨[], [], [], []⟩ []).scheduled
      = [⟨"instant_ingest_1", 110, .instantIngest 1⟩,
         ⟨"instant_analyze_1", 220, .instantAnalyze 1⟩]
    ∧ ("instant_ingest_1" : String) ≠ "instant_analyze_1" := by
  have h := C8_track_new_location "Hanoi" 21 105 4 100 ⟨[], [], [], []⟩ [] rfl
  exact ⟨h.1, h.2.1⟩

/-! ### Dispatch of the one-shot jobs (C10) -/

/-- The external collaborators a fired job may consult. -/
structure JobEnv where
  hist : FetchResult
  fc : FetchResult
  ai : List WeatherRecord → List Json × Option String

/-- Dispatch of a fired one-shot job (the callables registered in
views.py 167-184): the ingestion job runs
`ingest_data_for_single_location`, writing the obtained weather rows into
the time-series store; the analysis job runs `analyze_single_location`,
which only computes and returns its outcome — that source function
contains no ORM write, so the whole database state is returned untouched
alongside the outcome it computed. -/
def runJob (env : JobEnv) (op : JobOp) (db : DB) : DB × Option TaskOutcome :=
  match op with
  | .instantIngest locId =>
      ({ db with weather :=
          (ingest_data_for_single_location locId env.hist env.fc db.weather).2 },
       none)
  | .instantAnalyze locId =>
      (db, some (analyze_single_location locId db.weather env.ai).1)

/-- Fleet-wide persistence for contrast: `trigger_llm_analysis` appends the
alert writes that survive its run-wide transaction to the `ExtremeEvent`
store; this is the only operation of the core that writes alerts. -/
def run_trigger_llm_analysis (dbFail : Nat → Json → Bool)
    (outcomes : List TaskOutcome) (db : DB) : DB :=
  { db with events := db.events ++ trigger_llm_analysis_committed dbFail outcomes }

/-- C10: the one-shot analysis job scheduled at tracking time dispatches to
`analyze_single_location`, which only computes and returns the analysis
outcome for its location; the run leaves the entire database — the
`ExtremeEvent` alert store in particular — exactly unchanged, so
instant-tracking never writes any alert. -/
theorem C10_instant_analysis_writes_nothing (env : JobEnv) (locId : Nat)
    (db : DB) :
    (runJob env (.instantAnalyze locId) db).1 = db
    ∧ (runJob env (.instantAnalyze locId) db).1.events = db.events
    ∧ (runJob env (.instantAnalyze locId) db).2
        = some (analyze_single_location locId db.weather env.ai).1 :=
  ⟨rfl, rfl, rfl⟩

end DuBao
